import Mathlib

/-!
Shallow embedding of the socks-rs SOCKS5 library (crates socks-common,
socks-client, socks-server) and verification of its wire-codec,
authentication and connection-handling properties.

Bytes are modelled as `Nat` values (< 256 by construction on the encode
side); byte streams as `List Nat`.  A decoder is a function
`List Nat → Except Error (α × List Nat)` returning the decoded value and
the unconsumed rest.  An encoder returns the bytes that the Rust code
hands to `writer.write_all`; buffer-mutating encoders
(`Addr::write_to_buf`) return the pair of the `Result` and the final
buffer contents so that partial writes before an error stay observable.
-/

/-- Deep embedding of `std::io::ErrorKind` values used by the crates. -/
inductive IoErrorKind
  | UnexpectedEof
  | AddrNotAvailable
  | ConnectionRefused
  | Other (code : Nat)
deriving DecidableEq, Repr

/-- From `socks-common/src/response.rs`: `pub enum ResponseCode`. -/
inductive ResponseCode
  | Success
  | GeneralSocksServerFailure
  | ConnectionNotAllowedByRuleset
  | NetworkUnreachable
  | HostUnreachable
  | ConnectionRefused
  | TtlExpired
  | CommandNotSupported
  | AddrTypeNotSupported
deriving DecidableEq, Repr

/-- From `response.rs`: `impl Into<u8> for ResponseCode`. -/
def ResponseCode.into_u8 : ResponseCode → Nat
  | .Success => 0x00
  | .GeneralSocksServerFailure => 0x01
  | .ConnectionNotAllowedByRuleset => 0x02
  | .NetworkUnreachable => 0x03
  | .HostUnreachable => 0x04
  | .ConnectionRefused => 0x05
  | .TtlExpired => 0x06
  | .CommandNotSupported => 0x07
  | .AddrTypeNotSupported => 0x08

/-- From `socks-common/src/error.rs`: `pub enum Error`.  The
`IoError` payload keeps only the error kind; `InvalidDomain` drops the
wrapped `FromUtf8Error` payload. -/
inductive Error
  | IoError (kind : IoErrorKind)
  | VersionNotSupported (b : Nat)
  | AuthMethodNotSupported (b : Nat)
  | TooManyMethods
  | CommandNotSupported (b : Nat)
  | AddrTypeNotSupported (b : Nat)
  | DomainTooLong
  | InvalidDomain
  | ResponseCodeNotSupported (b : Nat)
  | NoAuthMethodSupported
  | AuthFailed (msg : String)
  | ConnectionFailed (code : ResponseCode)
deriving DecidableEq, Repr

/-- From `response.rs`: `impl TryFrom<u8> for ResponseCode`.  Note that
the source maps both `0x01` and `0x03` to `NetworkUnreachable`. -/
def ResponseCode.try_from (value : Nat) : Except Error ResponseCode :=
  if value = 0x00 then .ok .Success
  else if value = 0x01 then .ok .NetworkUnreachable
  else if value = 0x02 then .ok .ConnectionNotAllowedByRuleset
  else if value = 0x03 then .ok .NetworkUnreachable
  else if value = 0x04 then .ok .HostUnreachable
  else if value = 0x05 then .ok .ConnectionRefused
  else if value = 0x06 then .ok .TtlExpired
  else if value = 0x07 then .ok .CommandNotSupported
  else if value = 0x08 then .ok .AddrTypeNotSupported
  else .error (.ResponseCodeNotSupported value)

/-- From `socks-common/src/lib.rs`: `pub enum Version`. -/
inductive Version
  | V4
  | V5
deriving DecidableEq, Repr

/-- From `lib.rs`: `impl Into<u8> for Version`. -/
def Version.into_u8 : Version → Nat
  | .V4 => 0x04
  | .V5 => 0x05

/-- From `lib.rs`: `impl TryFrom<u8> for Version`. -/
def Version.try_from (value : Nat) : Except Error Version :=
  if value = 0x04 then .ok .V4
  else if value = 0x05 then .ok .V5
  else .error (.VersionNotSupported value)

/-- From `lib.rs`: `pub enum AuthMethod`. -/
inductive AuthMethod
  | None
  | GssApi
  | UsernamePassword
  | IanaReserved (v : Nat)
  | Private (v : Nat)
deriving DecidableEq, Repr

/-- From `lib.rs`: `impl Into<u8> for AuthMethod`. -/
def AuthMethod.into_u8 : AuthMethod → Nat
  | .None => 0x00
  | .GssApi => 0x01
  | .UsernamePassword => 0x02
  | .IanaReserved v => v
  | .Private v => v

/-- From `lib.rs`: `impl TryFrom<u8> for AuthMethod`.  The Rust range
patterns `0x03..=0x7f` and `0x80..=0xfe` become ordered guards; the
sentinel `0xff` falls through to the error arm. -/
def AuthMethod.try_from (value : Nat) : Except Error AuthMethod :=
  if value = 0x00 then .ok .None
  else if value = 0x01 then .ok .GssApi
  else if value = 0x02 then .ok .UsernamePassword
  else if value ≤ 0x7f then .ok (.IanaReserved value)
  else if value ≤ 0xfe then .ok (.Private value)
  else .error (.AuthMethodNotSupported value)

/-- An `AuthMethod` value that lies in the image of the wire byte
mapping `AuthMethod.try_from` (the tag payload is inside its range). -/
def AuthMethod.wf : AuthMethod → Bool
  | .None => true
  | .GssApi => true
  | .UsernamePassword => true
  | .IanaReserved v => decide (0x03 ≤ v ∧ v ≤ 0x7f)
  | .Private v => decide (0x80 ≤ v ∧ v ≤ 0xfe)

/-- From `lib.rs`: `pub enum Command`. -/
inductive Command
  | Connect
  | Bind
  | UdpAssociate
deriving DecidableEq, Repr

/-- From `lib.rs`: `impl Into<u8> for Command`. -/
def Command.into_u8 : Command → Nat
  | .Connect => 0x01
  | .Bind => 0x02
  | .UdpAssociate => 0x03

/-- From `lib.rs`: `impl TryFrom<u8> for Command`. -/
def Command.try_from (value : Nat) : Except Error Command :=
  if value = 0x01 then .ok .Connect
  else if value = 0x02 then .ok .Bind
  else if value = 0x03 then .ok .UdpAssociate
  else .error (.CommandNotSupported value)

/-- From `socks-common/src/addr.rs`: `pub enum AddrType`. -/
inductive AddrType
  | Ipv4
  | Domain
  | Ipv6
deriving DecidableEq, Repr

/-- From `addr.rs`: `impl Into<u8> for AddrType`. -/
def AddrType.into_u8 : AddrType → Nat
  | .Ipv4 => 0x01
  | .Domain => 0x03
  | .Ipv6 => 0x04

/-- From `addr.rs`: `impl TryFrom<u8> for AddrType`. -/
def AddrType.try_from (value : Nat) : Except Error AddrType :=
  if value = 0x01 then .ok .Ipv4
  else if value = 0x03 then .ok .Domain
  else if value = 0x04 then .ok .Ipv6
  else .error (.AddrTypeNotSupported value)

/-- Model of `std::net::SocketAddr`: a V4 address carries 4 ip octets
and a port, a V6 address 16 ip octets and a port (flowinfo and scope id
are always 0 in the sources and are dropped). -/
inductive SocketAddr
  | V4 (ip : List Nat) (port : Nat)
  | V6 (ip : List Nat) (port : Nat)
deriving DecidableEq, Repr

/-- From `addr.rs`: `pub enum TargetAddr`.  A Rust `String` is modelled
by its UTF-8 byte sequence. -/
inductive TargetAddr
  | Host (domain : List Nat) (port : Nat)
  | Addr (addr : SocketAddr)
deriving DecidableEq, Repr

/-- From `addr.rs`: `pub struct Addr(TargetAddr)`. -/
structure Addr where
  inner : TargetAddr
deriving DecidableEq, Repr

/-- Big-endian `u16` encoding, as done by `BufMut::put_u16`. -/
def putU16 (n : Nat) : List Nat := [n / 256 % 256, n % 256]

/-- Reading one byte (`AsyncReadExt::read_u8`); a missing byte is the
`UnexpectedEof` I/O error raised by a short read. -/
def readU8 : List Nat → Except Error (Nat × List Nat)
  | [] => .error (.IoError .UnexpectedEof)
  | b :: rest => .ok (b, rest)

/-- Reading a big-endian `u16` (`AsyncReadExt::read_u16`). -/
def readU16 (input : List Nat) : Except Error (Nat × List Nat) := do
  let (hi, input) ← readU8 input
  let (lo, input) ← readU8 input
  pure (hi * 256 + lo, input)

/-- Reading exactly `n` bytes into a slice of length `n`
(`AsyncReadExt::read_exact`); a short source is an `UnexpectedEof`. -/
def readExact (n : Nat) (input : List Nat) : Except Error (List Nat × List Nat) :=
  if input.length < n then .error (.IoError .UnexpectedEof)
  else .ok (input.take n, input.drop n)

/-- Models Rust `Vec::with_capacity(n)`: the vector is allocated with
capacity `n` but has length `0`, so viewed as a mutable byte slice it is
empty. -/
def vecWithCapacity (_n : Nat) : List Nat := []

/-- One continuation byte of a UTF-8 sequence. -/
def utf8Cont (b : Nat) : Bool := 0x80 ≤ b && b ≤ 0xbf

/-- UTF-8 validity of a byte sequence per RFC 3629 (the check performed
by Rust `String::from_utf8`). -/
def utf8Valid : List Nat → Bool
  | [] => true
  | b :: rest =>
    if b ≤ 0x7f then utf8Valid rest
    else if 0xc2 ≤ b && b ≤ 0xdf then
      match rest with
      | c1 :: rest2 => utf8Cont c1 && utf8Valid rest2
      | _ => false
    else if b = 0xe0 then
      match rest with
      | c1 :: c2 :: rest2 => (0xa0 ≤ c1 && c1 ≤ 0xbf) && utf8Cont c2 && utf8Valid rest2
      | _ => false
    else if (0xe1 ≤ b && b ≤ 0xec) || b = 0xee || b = 0xef then
      match rest with
      | c1 :: c2 :: rest2 => utf8Cont c1 && utf8Cont c2 && utf8Valid rest2
      | _ => false
    else if b = 0xed then
      match rest with
      | c1 :: c2 :: rest2 => (0x80 ≤ c1 && c1 ≤ 0x9f) && utf8Cont c2 && utf8Valid rest2
      | _ => false
    else if b = 0xf0 then
      match rest with
      | c1 :: c2 :: c3 :: rest2 =>
        (0x90 ≤ c1 && c1 ≤ 0xbf) && utf8Cont c2 && utf8Cont c3 && utf8Valid rest2
      | _ => false
    else if 0xf1 ≤ b && b ≤ 0xf3 then
      match rest with
      | c1 :: c2 :: c3 :: rest2 =>
        utf8Cont c1 && utf8Cont c2 && utf8Cont c3 && utf8Valid rest2
      | _ => false
    else if b = 0xf4 then
      match rest with
      | c1 :: c2 :: c3 :: rest2 =>
        (0x80 ≤ c1 && c1 ≤ 0x8f) && utf8Cont c2 && utf8Cont c3 && utf8Valid rest2
      | _ => false
    else false

/-- Rust `String::from_utf8`: keeps the bytes when they are valid UTF-8,
otherwise the decoder maps the failure to `Error::InvalidDomain`. -/
def stringFromUtf8 (bytes : List Nat) : Except Error (List Nat) :=
  if utf8Valid bytes then .ok bytes else .error .InvalidDomain

/-- From `addr.rs`: `Addr::serialize_len`. -/
def Addr.serialize_len (a : Addr) : Nat :=
  match a.inner with
  | .Addr (.V4 _ _) => 1 + 4 + 2
  | .Addr (.V6 _ _) => 1 + 16 + 2
  | .Host domain _ => 1 + 1 + domain.length + 2

/-- From `addr.rs`: `Addr::write_to_buf`.  Returns the `Result` together
with the final buffer contents: the source pushes the ATYP byte into the
buffer before checking the domain length, so on `DomainTooLong` the
buffer has already grown by one byte. -/
def Addr.write_to_buf (a : Addr) (buf : List Nat) : Except Error Unit × List Nat :=
  match a.inner with
  | .Addr (.V4 ip port) =>
    (.ok (), buf ++ [AddrType.Ipv4.into_u8] ++ ip ++ putU16 port)
  | .Addr (.V6 ip port) =>
    (.ok (), buf ++ [AddrType.Ipv6.into_u8] ++ ip ++ putU16 port)
  | .Host domain port =>
    let buf := buf ++ [AddrType.Domain.into_u8]
    if domain.length > 255 then (.error .DomainTooLong, buf)
    else (.ok (), buf ++ [domain.length] ++ domain ++ putU16 port)

/-- From `addr.rs`: `Addr::read_from`.  In the `Domain` arm the source
reads into `Vec::with_capacity(len)`, an empty slice, so `read_exact`
reads `0` bytes regardless of the length byte. -/
def Addr.read_from (input : List Nat) : Except Error (Addr × List Nat) := do
  let (addr_type_raw, input) ← readU8 input
  let addr_type ← AddrType.try_from addr_type_raw
  match addr_type with
  | .Ipv4 => do
    let (ip, input) ← readExact 4 input
    let (port, input) ← readU16 input
    pure (⟨.Addr (.V4 ip port)⟩, input)
  | .Ipv6 => do
    let (ip, input) ← readExact 16 input
    let (port, input) ← readU16 input
    pure (⟨.Addr (.V6 ip port)⟩, input)
  | .Domain => do
    let (len, input) ← readU8 input
    let str := vecWithCapacity len
    let (str, input) ← readExact str.length input
    let domain ← stringFromUtf8 str
    let (port, input) ← readU16 input
    pure (⟨.Host domain port⟩, input)

/-- From `socks-common/src/request.rs`: `pub struct AuthMethodsRequest`. -/
structure AuthMethodsRequest where
  version : Version
  methods : List AuthMethod
deriving DecidableEq, Repr

/-- From `request.rs`: `AuthMethodsRequest::write_to`.  On success the
result is the byte string handed to `writer.write_all`; `method_len as
u8` is the identity under the `> 255` guard. -/
def AuthMethodsRequest.write_to (r : AuthMethodsRequest) : Except Error (List Nat) :=
  let method_len := r.methods.length
  if method_len > 255 then .error .TooManyMethods
  else .ok ([r.version.into_u8, method_len] ++ r.methods.map AuthMethod.into_u8)

/-- From `request.rs`: the `for _ in 0..method_len` loop of
`AuthMethodsRequest::read_from`, reading one method byte per round. -/
def readAuthMethods : Nat → List Nat → Except Error (List AuthMethod × List Nat)
  | 0, input => .ok ([], input)
  | n + 1, input => do
    let (method_raw, input) ← readU8 input
    let method ← AuthMethod.try_from method_raw
    let (methods, input) ← readAuthMethods n input
    pure (method :: methods, input)

/-- From `request.rs`: `AuthMethodsRequest::read_from`. -/
def AuthMethodsRequest.read_from (input : List Nat) :
    Except Error (AuthMethodsRequest × List Nat) := do
  let (version_raw, input) ← readU8 input
  let version ← Version.try_from version_raw
  let (method_len, input) ← readU8 input
  let (methods, input) ← readAuthMethods method_len input
  pure (⟨version, methods⟩, input)

/-- From `request.rs`: `pub struct Request`. -/
structure Request where
  version : Version
  command : Command
  addr : Addr
deriving DecidableEq, Repr

/-- From `request.rs`: `Request::write_to`.  The local buffer receives
VER, CMD, RSV and then the address triple; only when the address encoder
succeeds is the buffer handed to `writer.write_all`, so an encode error
produces no I/O. -/
def Request.write_to (r : Request) : Except Error (List Nat) :=
  let buf := [r.version.into_u8, r.command.into_u8, 0x00]
  match r.addr.write_to_buf buf with
  | (.ok _, buf) => .ok buf
  | (.error e, _) => .error e

/-- From `request.rs`: `Request::read_from` (the reserved byte is read
and discarded). -/
def Request.read_from (input : List Nat) : Except Error (Request × List Nat) := do
  let (version_raw, input) ← readU8 input
  let version ← Version.try_from version_raw
  let (command_raw, input) ← readU8 input
  let command ← Command.try_from command_raw
  let (_, input) ← readU8 input
  let addr ← Addr.read_from input
  pure (⟨version, command, addr.1⟩, addr.2)

/-- From `socks-common/src/response.rs`: `pub struct AuthMethodsResponse`. -/
structure AuthMethodsResponse where
  version : Version
  method : Option AuthMethod
deriving DecidableEq, Repr

/-- From `response.rs`: `AuthMethodsResponse::write_to`; a `None` method
serializes as the sentinel byte `0xff`. -/
def AuthMethodsResponse.write_to (r : AuthMethodsResponse) : Except Error (List Nat) :=
  .ok [r.version.into_u8,
       match r.method with
       | some method => method.into_u8
       | none => 0xff]

/-- From `response.rs`: `AuthMethodsResponse::read_from`.  The method
byte goes through `AuthMethod::try_from`, so the result always carries
`Some method`; the sentinel `0xff` errors inside `try_from`. -/
def AuthMethodsResponse.read_from (input : List Nat) :
    Except Error (AuthMethodsResponse × List Nat) := do
  let (version_raw, input) ← readU8 input
  let version ← Version.try_from version_raw
  let (method_raw, input) ← readU8 input
  let method ← AuthMethod.try_from method_raw
  pure (⟨version, some method⟩, input)

/-- From `response.rs`: `pub struct Response`. -/
structure Response where
  version : Version
  code : ResponseCode
  addr : Addr
deriving DecidableEq, Repr

/-- From `response.rs`: `Response::write_to`, analogous to
`Request::write_to`. -/
def Response.write_to (r : Response) : Except Error (List Nat) :=
  let buf := [r.version.into_u8, r.code.into_u8, 0x00]
  match r.addr.write_to_buf buf with
  | (.ok _, buf) => .ok buf
  | (.error e, _) => .error e

/-- From `response.rs`: `Response::read_from`. -/
def Response.read_from (input : List Nat) : Except Error (Response × List Nat) := do
  let (version_raw, input) ← readU8 input
  let version ← Version.try_from version_raw
  let (code_raw, input) ← readU8 input
  let code ← ResponseCode.try_from code_raw
  let (_, input) ← readU8 input
  let addr ← Addr.read_from input
  pure (⟨version, code, addr.1⟩, addr.2)

/-- From `socks-client/src/lib.rs` (`SocksClient::handshake`, the method
selection step): read an `AuthMethodsResponse`; when its method is
`none` fail with `NoAuthMethodSupported`, otherwise continue with the
selected method. -/
def handshakeSelectMethod (input : List Nat) : Except Error (AuthMethod × List Nat) :=
  match AuthMethodsResponse.read_from input with
  | .error e => .error e
  | .ok (auth_methods_response, input) =>
    match auth_methods_response.method with
    | none => .error .NoAuthMethodSupported
    | some method => .ok (method, input)

namespace BasicAuthProvider

/-- From `socks-client/src/auth.rs`: `BasicAuthProvider::authenticate`.
`input` is the byte stream arriving from the server; the second
component of the result is the byte string the client wrote to the
server before the outcome was decided.  The status frame's first byte is
read and discarded (`let _ = inbound.read_u8()`), only the second byte
is inspected. -/
def authenticate (version : Version) (method : AuthMethod)
    (username password : List Nat) (input : List Nat) :
    Except Error Unit × List Nat :=
  if version ≠ Version.V5 then
    (.error (.VersionNotSupported version.into_u8), [])
  else
    match method with
    | .None => (.ok (), [])
    | .UsernamePassword =>
      let ulen := username.length
      let plen := password.length
      if ulen > 255 then (.error (.AuthFailed "username is too long"), [])
      else if plen > 255 then (.error (.AuthFailed "password is too long"), [])
      else
        let buf := [0x01, ulen] ++ username ++ [plen] ++ password
        match readU8 input with
        | .error e => (.error e, buf)
        | .ok (_, input) =>
          match readU8 input with
          | .error e => (.error e, buf)
          | .ok (res, _) =>
            if res = 0x00 then (.ok (), buf)
            else (.error (.AuthFailed "incorrect credential"), buf)
    | _ => (.error (.AuthMethodNotSupported method.into_u8), [])

end BasicAuthProvider

/-- The server reads from a TCP stream whose bytes arrive in chunks; a
single poll never crosses a chunk boundary.  `chunksReadU8` models
`read_u8`: it polls until one byte is available and fails only at end of
stream. -/
def chunksReadU8 : List (List Nat) → Except Error (Nat × List (List Nat))
  | [] => .error (.IoError .UnexpectedEof)
  | [] :: rest => chunksReadU8 rest
  | (b :: bs) :: rest => .ok (b, bs :: rest)

/-- Models `AsyncReadExt::read_buf` on a buffer of spare capacity `cap`:
a single poll that yields at most `cap` bytes of the currently delivered
chunk; at end of stream it returns 0 bytes (`Ok(0)`), not an error. -/
def chunksReadBuf (cap : Nat) : List (List Nat) → List Nat × List (List Nat)
  | [] => ([], [])
  | [] :: rest => chunksReadBuf cap rest
  | (b :: bs) :: rest => ((b :: bs).take cap, (b :: bs).drop cap :: rest)

/-- From `socks-server/src/auth.rs`: `auth_respond` — the bytes written
to the client: the SOCKS version byte followed by the status. -/
def auth_respond (version : Version) (success : Bool) : List Nat :=
  [version.into_u8, if success then 0x00 else 0x01]

/-- From `socks-server/src/auth.rs`: `auth_validate`.  The username and
password fields are read with `BytesMut::with_capacity(len)` followed by
a single `read_buf`, i.e. one poll of at most `len` bytes — not a
read-exact.  Returns the `Result` and the bytes written to the client. -/
def auth_validate (version : Version) (username password : List Nat)
    (inbound : List (List Nat)) : Except Error Unit × List Nat :=
  match chunksReadU8 inbound with
  | .error e => (.error e, [])
  | .ok (auth_version_raw, inbound) =>
    if auth_version_raw ≠ 0x01 then
      (.error (.VersionNotSupported auth_version_raw), [])
    else
      match chunksReadU8 inbound with
      | .error e => (.error e, [])
      | .ok (ulen, inbound) =>
        let (ubuff, inbound) := chunksReadBuf ulen inbound
        match chunksReadU8 inbound with
        | .error e => (.error e, [])
        | .ok (plen, inbound) =>
          let (pbuff, _) := chunksReadBuf plen inbound
          if username == ubuff && password == pbuff then
            (.ok (), auth_respond version true)
          else
            (.error (.AuthFailed "incorrect credentials"), auth_respond version false)

/-- A connected `tokio::net::TcpStream` is an abstract handle. -/
abbrev TcpConn := Nat

/-- The `for addr in remote_addr` loop of `tcp_connect` in
`socks-common/src/connector.rs`: return the first successful connection,
otherwise keep the latest error (`err = Err(e)`). -/
def tcp_connect_loop (connect : SocketAddr → Except IoErrorKind TcpConn) :
    List SocketAddr → Except IoErrorKind TcpConn → Except IoErrorKind TcpConn
  | [], err => err
  | addr :: rest, err =>
    match connect addr with
    | .ok socket => .ok socket
    | .error e =>
      let _ := err
      tcp_connect_loop connect rest (.error e)

/-- From `connector.rs`: `tcp_connect`.  `resolve` is the result of
`resolver.resolve(addr)` for the requested target; `connect` gives the
outcome of `TcpStream::connect` per endpoint.  The error accumulator
starts as the `AddrNotAvailable` error used when the resolver returns an
empty list. -/
def tcp_connect (resolve : Except IoErrorKind (List SocketAddr))
    (connect : SocketAddr → Except IoErrorKind TcpConn) :
    Except IoErrorKind TcpConn :=
  match resolve with
  | .error e => .error e
  | .ok remote_addr => tcp_connect_loop connect remote_addr (.error .AddrNotAvailable)

/-- The dummy bound address `0.0.0.0:0` built in
`SocksConnection::handle_connect_command`
(`SocketAddr::from(([0, 0, 0, 0], 0))`). -/
def dummyAddr : Addr := ⟨.Addr (.V4 [0, 0, 0, 0] 0)⟩

/-- From `socks-server/src/lib.rs`: `SocksConnection::handle_connect_command`.
On a successful upstream connection the server sends
`Response(version, Success, dummy)`; on failure it sends
`Response(version, NetworkUnreachable, dummy)` and propagates the
connect error.  The second component is the bytes written to the
client. -/
def handle_connect_command (request : Request)
    (resolve : Except IoErrorKind (List SocketAddr))
    (connect : SocketAddr → Except IoErrorKind TcpConn) :
    Except Error TcpConn × List Nat :=
  match tcp_connect resolve connect with
  | .ok remote_conn =>
    match (Response.mk request.version .Success dummyAddr).write_to with
    | .ok bytes => (.ok remote_conn, bytes)
    | .error e => (.error e, [])
  | .error e =>
    match (Response.mk request.version .NetworkUnreachable dummyAddr).write_to with
    | .ok bytes => (.error (.IoError e), bytes)
    | .error e2 => (.error e2, [])

/-- From `socks-server/src/lib.rs`: `SocksConnection::handle_bind_command`
— no bytes are written to the client; the command byte is wrapped in a
`CommandNotSupported` error. -/
def handle_bind_command (request : Request) : Except Error TcpConn × List Nat :=
  (.error (.CommandNotSupported request.command.into_u8), [])

/-- From `socks-server/src/lib.rs`:
`SocksConnection::handle_udp_associate_command` — identical to the BIND
handler: no bytes are written. -/
def handle_udp_associate_command (request : Request) : Except Error TcpConn × List Nat :=
  (.error (.CommandNotSupported request.command.into_u8), [])

/-- From `socks-server/src/lib.rs`: the command dispatch at the end of
`SocksConnection::handshake` (`match request.command`). -/
def dispatch_command (request : Request)
    (resolve : Except IoErrorKind (List SocketAddr))
    (connect : SocketAddr → Except IoErrorKind TcpConn) :
    Except Error TcpConn × List Nat :=
  match request.command with
  | .Connect => handle_connect_command request resolve connect
  | .Bind => handle_bind_command request
  | .UdpAssociate => handle_udp_associate_command request

deriving instance DecidableEq for Except

/-- Bind on a successful `Except` computation runs the continuation. -/
theorem except_bind_ok {α β : Type} (a : α) (f : α → Except Error β) :
    (Except.ok a >>= f) = f a := rfl

/-- Bind on a failed `Except` computation keeps the error. -/
theorem except_bind_error {α β : Type} (e : Error) (f : α → Except Error β) :
    ((Except.error e : Except Error α) >>= f) = .error e := rfl

/-- The wire byte of a `Version` decodes back to it. -/
theorem version_try_from_into (v : Version) : Version.try_from v.into_u8 = .ok v := by
  cases v <;> rfl

/-- The wire byte of a well-formed `AuthMethod` decodes back to it. -/
theorem authMethod_try_from_into (m : AuthMethod) (h : m.wf = true) :
    AuthMethod.try_from m.into_u8 = .ok m := by
  cases m with
  | None => rfl
  | GssApi => rfl
  | UsernamePassword => rfl
  | IanaReserved v =>
    simp only [AuthMethod.wf, decide_eq_true_eq] at h
    simp only [AuthMethod.into_u8, AuthMethod.try_from]
    rw [if_neg (by omega), if_neg (by omega), if_neg (by omega), if_pos (by omega)]
  | Private v =>
    simp only [AuthMethod.wf, decide_eq_true_eq] at h
    simp only [AuthMethod.into_u8, AuthMethod.try_from]
    rw [if_neg (by omega), if_neg (by omega), if_neg (by omega),
        if_neg (by omega), if_pos (by omega)]

/-- The decode loop of `AuthMethodsRequest::read_from` inverts the encode
loop of `write_to` on any list of well-formed methods. -/
theorem readAuthMethods_encode (ms : List AuthMethod) (rest : List Nat)
    (h : ∀ m ∈ ms, m.wf = true) :
    readAuthMethods ms.length (ms.map AuthMethod.into_u8 ++ rest) = .ok (ms, rest) := by
  induction ms with
  | nil => rfl
  | cons m ms ih =>
    simp only [List.length_cons, List.map_cons, List.cons_append, readAuthMethods, readU8,
      except_bind_ok]
    rw [authMethod_try_from_into m (h m (by simp)), except_bind_ok,
      ih (fun x hx => h x (by simp [hx])), except_bind_ok]
    rfl

/-- C1: for the valid domain request `Request(V5, Connect, "a":80)` the
encoder emits the RFC-correct frame `[5, 1, 0, 3, 1, 97, 0, 80]` (length
`3 + serialize_len`), but the decoder does not read the domain bytes
after the length byte: `Addr::read_from` fills a zero-length slice, so
decoding the encoded frame yields the empty domain with port `0x6100 =
24832` (the port is parsed out of the domain bytes) and leaves a byte
unconsumed.  `decode(encode(r)) ≠ r`. -/
theorem c1_request_domain_roundtrip_fails :
    Request.write_to ⟨.V5, .Connect, ⟨.Host [97] 80⟩⟩ = .ok [5, 1, 0, 3, 1, 97, 0, 80] ∧
    [5, 1, 0, 3, 1, 97, 0, 80].length = 3 + Addr.serialize_len ⟨.Host [97] 80⟩ ∧
    Request.read_from [5, 1, 0, 3, 1, 97, 0, 80] =
      .ok (⟨.V5, .Connect, ⟨.Host [] 24832⟩⟩, [80]) ∧
    (⟨.V5, .Connect, ⟨.Host [] 24832⟩⟩ : Request) ≠ ⟨.V5, .Connect, ⟨.Host [97] 80⟩⟩ :=
  ⟨rfl, rfl, rfl, by decide⟩

/-- The username configured in the Basic-auth scenario of C2 ("alice"). -/
def aliceBytes : List Nat := [97, 108, 105, 99, 101]

/-- The password configured in the Basic-auth scenario of C2 ("s3cret"). -/
def s3cretBytes : List Nat := [115, 51, 99, 114, 101, 116]

/-- The RFC 1929 credential frame carrying exactly the configured
credentials of C2: `VER=1 | ULEN=5 | "alice" | PLEN=6 | "s3cret"`. -/
def c2Frame : List Nat :=
  [0x01, aliceBytes.length] ++ aliceBytes ++ [s3cretBytes.length] ++ s3cretBytes

/-- The same frame as delivered by the transport in two chunks, split in
the middle of the username field. -/
def c2Chunks : List (List Nat) := [c2Frame.take 4, c2Frame.drop 4]

/-- C2: the server's `auth_validate` is not read-exact.  The client
sends the byte-exact credential frame for the configured pair
("alice", "s3cret"), but the transport delivers it in two chunks split
inside the username.  The single `read_buf` poll returns only 2 of the
5 username bytes, the comparison fails, and the server answers
STATUS=0x01 and returns `AuthFailed` — rejecting matching
credentials, contrary to the accept-iff-equal property. -/
theorem c2_auth_validate_not_read_exact :
    c2Chunks = [[0x01, 0x05, 97, 108], [105, 99, 101, 0x06, 115, 51, 99, 114, 101, 116]] ∧
    auth_validate .V5 aliceBytes s3cretBytes c2Chunks =
      (.error (.AuthFailed "incorrect credentials"), [0x05, 0x01]) :=
  ⟨rfl, rfl⟩

/-- C3: the `ResponseCode` decoder maps the byte `0x01` to
`NetworkUnreachable` instead of the general-failure code, and re-encoding
the decoded value gives `0x03`, not `0x01` — both the RFC mapping and
the round-trip fail at `0x01`. -/
theorem c3_responseCode_0x01_decodes_wrong :
    ResponseCode.try_from 0x01 = .ok .NetworkUnreachable ∧
    ResponseCode.try_from 0x01 ≠ .ok .GeneralSocksServerFailure ∧
    ResponseCode.NetworkUnreachable.into_u8 = 0x03 :=
  ⟨rfl, by decide, rfl⟩

/-- C10: implicit behaviour confirmed — the `AuthMethodsRequest` decoder
accepts `NMETHODS = 0`: the frame `[0x05, 0x00]` decodes to a request
with an empty method list (consuming the whole frame), and the encoder
accepts the empty list, emitting that same frame. -/
theorem c10_empty_methods_accepted :
    AuthMethodsRequest.read_from [0x05, 0x00] = .ok (⟨.V5, []⟩, []) ∧
    AuthMethodsRequest.write_to ⟨.V5, []⟩ = .ok [0x05, 0x00] :=
  ⟨rfl, rfl⟩

/-- C4: on the method-selection reply `[0x05, 0xff]` (METHOD = 0xFF, "no
acceptable methods") the client handshake fails with
`AuthMethodNotSupported(0xff)` raised inside `AuthMethodsResponse::read_from`
(whose `AuthMethod::try_from` has no arm for `0xff`), not with
`NoAuthMethodSupported`; the client's `method.is_none()` branch that
would produce `NoAuthMethodSupported` is unreachable for every input. -/
theorem c4_handshake_0xff_wrong_error :
    handshakeSelectMethod [0x05, 0xff] = .error (.AuthMethodNotSupported 0xff) ∧
    ∀ input, handshakeSelectMethod input ≠ .error .NoAuthMethodSupported := by
  refine ⟨rfl, ?_⟩
  intro input h
  rcases input with _ | ⟨b, _ | ⟨c, rest⟩⟩ <;>
    simp only [handshakeSelectMethod, AuthMethodsResponse.read_from, readU8,
      Version.try_from, AuthMethod.try_from, except_bind_ok, except_bind_error] at h
  all_goals try split_ifs at h
  all_goals simp_all [except_bind_ok, except_bind_error]

/-- C5 counterexample: for the concrete BIND request
`Request(V5, Bind, 1.2.3.4:80)` the server's command dispatch writes no
bytes at all to the client — in particular not the 10-byte
`Response(CommandNotSupported, 0.0.0.0:0)` frame the claim requires —
and surfaces `CommandNotSupported(0x02)` internally. -/
theorem c5_bind_writes_no_response :
    dispatch_command ⟨.V5, .Bind, ⟨.Addr (.V4 [1, 2, 3, 4] 80)⟩⟩ (.ok [])
        (fun _ => .error (.Other 0)) =
      (.error (.CommandNotSupported 0x02), []) ∧
    Response.write_to ⟨.V5, .CommandNotSupported, dummyAddr⟩ =
      .ok [5, 7, 0, 1, 0, 0, 0, 0, 0, 0] ∧
    ([] : List Nat) ≠ [5, 7, 0, 1, 0, 0, 0, 0, 0, 0] :=
  ⟨rfl, rfl, by decide⟩

/-- C5 amended: for every Request whose command is BIND or UDP
ASSOCIATE, the server writes nothing to the client; the handler returns
`CommandNotSupported(cmd)` internally and the connection is then shut
down without any Response. -/
theorem c5_bind_udp_no_reply (r : Request)
    (resolve : Except IoErrorKind (List SocketAddr))
    (connect : SocketAddr → Except IoErrorKind TcpConn)
    (h : r.command = .Bind ∨ r.command = .UdpAssociate) :
    dispatch_command r resolve connect =
      (.error (.CommandNotSupported r.command.into_u8), []) := by
  rcases h with h | h <;>
    simp [dispatch_command, h, handle_bind_command, handle_udp_associate_command]

/-- Witness for `c5_bind_udp_no_reply` at a concrete BIND request. -/
theorem c5_bind_udp_no_reply_witness :
    dispatch_command ⟨.V5, .Bind, ⟨.Host [97] 80⟩⟩ (.ok [])
        (fun _ => .error .ConnectionRefused) =
      (.error (.CommandNotSupported 0x02), []) := by
  have h := c5_bind_udp_no_reply ⟨.V5, .Bind, ⟨.Host [97] 80⟩⟩ (.ok [])
    (fun _ => .error .ConnectionRefused) (Or.inl rfl)
  simpa using h

/-- C6 counterexample: the client's `BasicAuthProvider::authenticate`,
fed the status frame `[0x02, 0x00]` whose sub-negotiation version byte
is `0x02`, succeeds — the first byte of the status frame is read and
discarded, not rejected with `VersionNotSupported`. -/
theorem c6_client_accepts_bad_subversion :
    BasicAuthProvider.authenticate .V5 .UsernamePassword aliceBytes s3cretBytes
      [0x02, 0x00] = (.ok (), c2Frame) :=
  rfl

/-- C6 amended: the server's `auth_validate` rejects a sub-negotiation
version byte ≠ 0x01 with `VersionNotSupported`, but the client's
`authenticate` reads and discards the status frame's version byte: for
every version byte `v` it accepts the frame `[v, 0x00]`, inspecting only
the status byte. -/
theorem c6_subversion_check_server_only (b : Nat) (hb : b ≠ 0x01)
    (chunk : List Nat) (chunks : List (List Nat)) (u p : List Nat)
    (hu : u.length ≤ 255) (hp : p.length ≤ 255) (v : Nat) :
    auth_validate .V5 u p ((b :: chunk) :: chunks) =
      (.error (.VersionNotSupported b), []) ∧
    (BasicAuthProvider.authenticate .V5 .UsernamePassword u p [v, 0x00]).1 =
      .ok () := by
  constructor
  · simp [auth_validate, chunksReadU8, hb]
  · have hu2 : ¬ u.length > 255 := by omega
    have hp2 : ¬ p.length > 255 := by omega
    simp [BasicAuthProvider.authenticate, readU8, hu2, hp2]

/-- Witness for `c6_subversion_check_server_only` at sub-version byte 2
and the credentials of the C2 scenario. -/
theorem c6_subversion_check_server_only_witness :
    auth_validate .V5 aliceBytes s3cretBytes [[0x02, 0x00]] =
      (.error (.VersionNotSupported 0x02), []) ∧
    (BasicAuthProvider.authenticate .V5 .UsernamePassword aliceBytes s3cretBytes
      [0x02, 0x00]).1 = .ok () := by
  have h := c6_subversion_check_server_only 0x02 (by decide) [0x00] [] aliceBytes
    s3cretBytes (by decide) (by decide) 0x02
  simpa using h

set_option maxRecDepth 4000 in
/-- C7 counterexample: encoding a 256-byte domain into an empty buffer
fails with `DomainTooLong` but leaves the buffer holding the ATYP byte
`0x03` — `write_to_buf` pushes the ATYP byte before checking the length,
so the output is not left unchanged. -/
theorem c7_domain_too_long_writes_atyp :
    Addr.write_to_buf ⟨.Host (List.replicate 256 97) 80⟩ [] =
      (.error .DomainTooLong, [0x03]) ∧
    ([0x03] : List Nat) ≠ [] :=
  ⟨rfl, by decide⟩

/-- C7 amended: for every domain longer than 255 bytes, `write_to_buf`
fails with `DomainTooLong` after appending exactly the ATYP byte `0x03`
to the buffer, and at the PDU level `Request::write_to` surfaces the
error before any I/O: no bytes are handed to the stream. -/
theorem c7_domain_too_long_no_io (domain : List Nat) (port : Nat)
    (buf : List Nat) (h : domain.length > 255) (v : Version) (c : Command) :
    Addr.write_to_buf ⟨.Host domain port⟩ buf =
      (.error .DomainTooLong, buf ++ [0x03]) ∧
    Request.write_to ⟨v, c, ⟨.Host domain port⟩⟩ = .error .DomainTooLong := by
  constructor
  · simp [Addr.write_to_buf, AddrType.into_u8, h]
  · simp [Request.write_to, Addr.write_to_buf, AddrType.into_u8, h]

/-- Witness for `c7_domain_too_long_no_io` at a 256-byte domain. -/
theorem c7_domain_too_long_no_io_witness :
    Addr.write_to_buf ⟨.Host (List.replicate 256 97) 80⟩ [] =
      (.error .DomainTooLong, [] ++ [0x03]) ∧
    Request.write_to ⟨.V5, .Connect, ⟨.Host (List.replicate 256 97) 80⟩⟩ =
      .error .DomainTooLong :=
  c7_domain_too_long_no_io (List.replicate 256 97) 80 []
    (by rw [List.length_replicate]; omega) .V5 .Connect

/-- One pass of `tcp_connect_loop` past a failing endpoint replaces the
error accumulator with that endpoint's error. -/
theorem tcp_connect_loop_cons_error
    (connect : SocketAddr → Except IoErrorKind TcpConn) (a : SocketAddr)
    (rest : List SocketAddr) (err : Except IoErrorKind TcpConn)
    (e : IoErrorKind) (he : connect a = .error e) :
    tcp_connect_loop connect (a :: rest) err =
      tcp_connect_loop connect rest (.error e) := by
  simp [tcp_connect_loop, he]

/-- `tcp_connect_loop` returns the first successful connection,
whatever the accumulator and the later endpoints. -/
theorem tcp_connect_loop_first_success
    (connect : SocketAddr → Except IoErrorKind TcpConn) (a : SocketAddr)
    (conn : TcpConn) (hc : connect a = .ok conn) :
    ∀ (pre : List SocketAddr), (∀ x ∈ pre, ∃ e, connect x = .error e) →
      ∀ (post : List SocketAddr) (err : Except IoErrorKind TcpConn),
        tcp_connect_loop connect (pre ++ a :: post) err = .ok conn := by
  intro pre
  induction pre with
  | nil =>
    intro _ post err
    simp [tcp_connect_loop, hc]
  | cons x xs ih =>
    intro hfail post err
    obtain ⟨e, he⟩ := hfail x (by simp)
    rw [List.cons_append, tcp_connect_loop_cons_error connect x _ err e he]
    exact ih (fun y hy => hfail y (by simp [hy])) post _

/-- When every endpoint fails, `tcp_connect_loop` returns the last
endpoint's error. -/
theorem tcp_connect_loop_all_fail
    (connect : SocketAddr → Except IoErrorKind TcpConn) (last : SocketAddr)
    (hlast : ∃ e, connect last = .error e) :
    ∀ (init : List SocketAddr), (∀ x ∈ init, ∃ e, connect x = .error e) →
      ∀ (err : Except IoErrorKind TcpConn),
        tcp_connect_loop connect (init ++ [last]) err = connect last := by
  intro init
  induction init with
  | nil =>
    intro _ err
    obtain ⟨e, he⟩ := hlast
    simp [tcp_connect_loop, he]
  | cons x xs ih =>
    intro hfail err
    obtain ⟨e, he⟩ := hfail x (by simp)
    rw [List.cons_append, tcp_connect_loop_cons_error connect x _ err e he]
    exact ih (fun y hy => hfail y (by simp [hy])) _

/-- C8: `tcp_connect` (i) fails with `AddrNotAvailable` when the
resolver returns an empty endpoint list, (ii) returns the first
successful connection in resolver order — independent of all later
endpoints, which are never tried, and (iii) when every endpoint fails it
returns the last attempt's error. -/
theorem c8_tcp_connect_behaviour
    (connect : SocketAddr → Except IoErrorKind TcpConn) :
    tcp_connect (.ok []) connect = .error .AddrNotAvailable ∧
    (∀ (pre : List SocketAddr) (a : SocketAddr) (post : List SocketAddr)
        (conn : TcpConn), (∀ x ∈ pre, ∃ e, connect x = .error e) →
        connect a = .ok conn →
        tcp_connect (.ok (pre ++ a :: post)) connect = .ok conn) ∧
    (∀ (init : List SocketAddr) (last : SocketAddr),
        (∀ x ∈ init ++ [last], ∃ e, connect x = .error e) →
        tcp_connect (.ok (init ++ [last])) connect = connect last) := by
  refine ⟨rfl, ?_, ?_⟩
  · intro pre a post conn hfail hc
    exact tcp_connect_loop_first_success connect a conn hc pre hfail post _
  · intro init last hfail
    exact tcp_connect_loop_all_fail connect last (hfail last (by simp)) init
      (fun y hy => hfail y (by simp [hy])) _

/-- A concrete endpoint for the C8 witness: 10.0.0.1:80, which refuses
the connection. -/
def c8AddrDown : SocketAddr := .V4 [10, 0, 0, 1] 80

/-- A concrete endpoint for the C8 witness: 10.0.0.2:80, which accepts
the connection as handle 7. -/
def c8AddrUp : SocketAddr := .V4 [10, 0, 0, 2] 80

/-- The connect outcome table for the C8 witness. -/
def c8Connect : SocketAddr → Except IoErrorKind TcpConn :=
  fun a => if a = c8AddrUp then .ok 7 else .error .ConnectionRefused

/-- Witness for `c8_tcp_connect_behaviour`: empty resolution fails with
`AddrNotAvailable`; `[down, up]` connects to the second endpoint; and
`[down, down]` ends with the last `ConnectionRefused` error. -/
theorem c8_tcp_connect_behaviour_witness :
    tcp_connect (.ok []) c8Connect = .error .AddrNotAvailable ∧
    tcp_connect (.ok [c8AddrDown, c8AddrUp]) c8Connect = .ok 7 ∧
    tcp_connect (.ok [c8AddrDown, c8AddrDown]) c8Connect =
      .error .ConnectionRefused := by
  obtain ⟨h1, h2, h3⟩ := c8_tcp_connect_behaviour c8Connect
  refine ⟨h1, ?_, ?_⟩
  · have := h2 [c8AddrDown] c8AddrUp [] 7
      (by intro x hx; simp at hx; subst hx; exact ⟨.ConnectionRefused, by decide⟩)
      (by decide)
    simpa using this
  · have := h3 [c8AddrDown] c8AddrDown
      (by intro x hx
          have hx2 : x = c8AddrDown := by
            rcases List.mem_append.mp hx with h2 | h2 <;> simpa using h2
          subst hx2
          exact ⟨.ConnectionRefused, by decide⟩)
    have hc : c8Connect c8AddrDown = .error .ConnectionRefused := by decide
    rw [hc] at this
    simpa using this

/-- C9: round-trip of `AuthMethodsRequest` — for every version and every
list of 1 to 255 well-formed methods (values in the image of the wire
byte mapping `AuthMethod::try_from`), the decoder applied to the
encoder's output returns the same version and the same method sequence
in the same order, consuming the whole frame. -/
theorem c9_authMethodsRequest_roundtrip (v : Version) (ms : List AuthMethod)
    (hwf : ∀ m ∈ ms, m.wf = true) (h1 : 1 ≤ ms.length)
    (h255 : ms.length ≤ 255) :
    ∃ bytes, AuthMethodsRequest.write_to ⟨v, ms⟩ = .ok bytes ∧
      AuthMethodsRequest.read_from bytes = .ok (⟨v, ms⟩, []) := by
  refine ⟨[v.into_u8, ms.length] ++ ms.map AuthMethod.into_u8, ?_, ?_⟩
  · simp only [AuthMethodsRequest.write_to]
    rw [if_neg (by omega)]
  · have hms := readAuthMethods_encode ms [] hwf
    rw [List.append_nil] at hms
    simp only [AuthMethodsRequest.read_from, List.cons_append, List.nil_append,
      readU8, except_bind_ok]
    rw [version_try_from_into, except_bind_ok, hms, except_bind_ok]
    rfl

/-- Witness for `c9_authMethodsRequest_roundtrip` at
`AuthMethodsRequest(V5, [None, UsernamePassword])`. -/
theorem c9_authMethodsRequest_roundtrip_witness :
    ∃ bytes, AuthMethodsRequest.write_to ⟨.V5, [.None, .UsernamePassword]⟩ =
        .ok bytes ∧
      AuthMethodsRequest.read_from bytes =
        .ok (⟨.V5, [.None, .UsernamePassword]⟩, []) :=
  c9_authMethodsRequest_roundtrip .V5 [.None, .UsernamePassword]
    (by decide) (by decide) (by decide)
